import Mathlib

/-!
Verification of the resumable human-in-the-loop task-execution engine
(`src/app.py`).  The graph nodes (`analyze_task`, `execute_task`,
`handle_rejection`), the router (`route_after_analyze`), the graph topology
(`create_workflow`) and the decision merges performed by the UI callbacks
(`resume_workflow`, `modify_and_resume`) are embedded directly from the
source.  The execution engine itself (run / resume / checkpointing) lives in
the third-party langgraph library, which is not part of this repository's
sources; its behaviour is modelled from the specification (§4.5, §7).
-/

namespace App

/-- ASCII lowercasing of a string, character by character; models Python's
`str.lower()` on the ASCII inputs used throughout the program. -/
def strLower (s : String) : String := ⟨s.data.map Char.toLower⟩

/-- Decides whether the character list `n` is a prefix of `l`. -/
def isPrefixL : List Char → List Char → Bool
  | [], _ => true
  | _ :: _, [] => false
  | a :: as, b :: bs => a == b && isPrefixL as bs

/-- Decides whether `needle` occurs as a contiguous sublist of the second
list; models Python's `in` operator on strings. -/
def occursL (needle : List Char) : List Char → Bool
  | [] => needle.isEmpty
  | c :: cs => isPrefixL needle (c :: cs) || occursL needle cs

/-- Substring test: does `needle` occur as a contiguous substring of `hay`? -/
def containsSub (hay needle : String) : Bool := occursL needle.data hay.data

/-- The sensitive keyword list of `analyze_task` (src/app.py line 25). -/
def sensitive_keywords : List String :=
  ["delete", "remove", "critical", "important", "sensitive"]

/-- The approval policy of `analyze_task` (src/app.py line 26):
`any(keyword in task.lower() for keyword in sensitive_keywords)`. -/
def needs_approval (task : String) : Bool :=
  sensitive_keywords.any fun keyword => containsSub (strLower task) keyword

/-- The state container `WorkflowState` (src/app.py lines 8-12). -/
structure WorkflowState where
  task : String
  approval_status : Option String
  result : Option String
  iteration : Nat
deriving DecidableEq, Repr

/-- The NodeInterrupt message raised by `analyze_task` (src/app.py lines 30-34). -/
def interruptMessage (task : String) : String :=
  "🔔 Task requires human approval:\n📋 Task: " ++ task ++
    "\nPlease choose: Approve / Reject / Modify"

/-- The `analyze` node (src/app.py lines 15-36).  Raising `NodeInterrupt` is
embedded as `Except.error` carrying the interrupt message. -/
def analyze_task (state : WorkflowState) : Except String WorkflowState :=
  let task := state.task
  let iteration := state.iteration
  if iteration > 0 then
    .ok { state with approval_status := some "modified" }
  else if needs_approval task then
    .error (interruptMessage task)
  else
    .ok { state with approval_status := some "auto_approved" }

/-- Message template for `approval_status = "approved"` (src/app.py line 45). -/
def approvedMsg (task : String) : String :=
  "✅ Task approved and executed:\n📋 " ++ task

/-- Message template for `approval_status = "modified"` (src/app.py line 46). -/
def modifiedMsg (task : String) : String :=
  "📝 Modified task executed successfully:\n📋 " ++ task

/-- Message template for `approval_status = "auto_approved"` (src/app.py line 47). -/
def autoApprovedMsg (task : String) : String :=
  "✅ Task auto-approved and executed:\n📋 " ++ task

/-- Fallback message of `execute_task` (src/app.py line 50). -/
def genericMsg (task : String) : String :=
  "✅ Task completed:\n📋 " ++ task

/-- The `execute` node (src/app.py lines 38-52): a dictionary lookup keyed by
`approval_status` with a generic fallback; a missing status reads as
`"unknown"`. -/
def execute_task (state : WorkflowState) : WorkflowState :=
  let task := state.task
  let approval_status := state.approval_status.getD "unknown"
  let result :=
    if approval_status == "approved" then approvedMsg task
    else if approval_status == "modified" then modifiedMsg task
    else if approval_status == "auto_approved" then autoApprovedMsg task
    else genericMsg task
  { state with result := some result }

/-- The rejection message of `handle_rejection` (src/app.py line 58). -/
def rejectedMsg (task : String) : String :=
  "❌ Task rejected and not executed:\n📋 " ++ task

/-- The `reject` node (src/app.py lines 54-59). -/
def handle_rejection (state : WorkflowState) : WorkflowState :=
  { state with result := some (rejectedMsg state.task) }

/-- The router (src/app.py lines 62-65): `state.get("approval_status", "")`,
then `"reject" if approval_status == "rejected" else "execute"`. -/
def route_after_analyze (state : WorkflowState) : String :=
  let approval_status := state.approval_status.getD ""
  if approval_status == "rejected" then "reject" else "execute"

/-- The conditional-edge table out of `analyze` (src/app.py lines 79-85):
label `"reject"` maps to the `reject` node, label `"execute"` to the
`execute` node, and both successors are terminal (edges to END). -/
def continueFromRouter (state : WorkflowState) : WorkflowState :=
  if route_after_analyze state == "reject" then handle_rejection state
  else execute_task state

/-- Per-thread status of a checkpoint.  Modelled from the spec: §4.5's thread
state machine restricted to the two persisted states `SUSPENDED` and
`COMPLETED` (`FRESH` is the absence of a checkpoint and `RUNNING` is
transient within a call). -/
inductive ThreadStatus where
  | suspendedS : ThreadStatus
  | completedS : ThreadStatus
deriving DecidableEq, Repr

/-- A checkpoint: latest state snapshot plus thread status.  Modelled from the
spec: §3 "Checkpoint" (the paused-step name is omitted: the only step that can
suspend is Analyze). -/
structure Checkpoint where
  state : WorkflowState
  status : ThreadStatus
deriving DecidableEq, Repr

/-- Outcome of `run`/`resume` as in spec §6. -/
inductive RunOutcome where
  | suspendedO (message : String) : RunOutcome
  | completedO (result : String) : RunOutcome
deriving DecidableEq, Repr

/-- The initial state built by `process_new_task` (src/app.py line 191). -/
def initialState (task : String) : WorkflowState :=
  { task := task, approval_status := none, result := none, iteration := 0 }

/-- Modelled from the spec: `run` of the Execution Engine (§4.5), walking the
graph of `create_workflow` (src/app.py lines 68-89) from a fresh thread:
enter at `analyze`; a suspension parks the thread at Analyze's conditional
boundary with the pre-step state checkpointed; otherwise follow the
conditional edge to a terminal node and complete. -/
def run (task : String) : RunOutcome × Checkpoint :=
  match analyze_task (initialState task) with
  | .error msg =>
      (.suspendedO msg, { state := initialState task, status := .suspendedS })
  | .ok s1 =>
      let s2 := continueFromRouter s1
      (.completedO (s2.result.getD ""),
        { state := s2, status := .completedS })

/-- A resume decision: `plain d` is `resume_workflow(d)` (src/app.py
lines 218-245, merging `approval_status = d`); `modifiedD t` is
`modify_and_resume(t)` (src/app.py lines 247-277, merging the new task,
`approval_status = "modified"` and `iteration = 1`). -/
inductive Decision where
  | plain (d : String) : Decision
  | modifiedD (newTask : String) : Decision
deriving DecidableEq, Repr

/-- The state merge performed by `update_state` before resuming: from
`resume_workflow` (src/app.py line 227) and `modify_and_resume`
(src/app.py lines 256-260). -/
def mergeDecision (s : WorkflowState) : Decision → WorkflowState
  | .plain d => { s with approval_status := some d }
  | .modifiedD t =>
      { s with task := t, approval_status := some "modified", iteration := 1 }

/-- Error taxonomy of spec §7 relevant to `resume`. -/
inductive ResumeError where
  | invalidTransition : ResumeError
deriving DecidableEq, Repr

/-- Modelled from the spec: `resume` of the Execution Engine (§4.5): valid
from SUSPENDED only (InvalidTransition otherwise, §7); merges the decision
into the checkpointed state and re-enters at the step immediately following
the suspension point — the conditional edge out of Analyze is re-evaluated
with the merged state — then proceeds to a terminal node. -/
def resume (c : Checkpoint) (d : Decision) : Except ResumeError (RunOutcome × Checkpoint) :=
  match c.status with
  | .completedS => .error .invalidTransition
  | .suspendedS =>
      let merged := mergeDecision c.state d
      let s2 := continueFromRouter merged
      .ok (.completedO (s2.result.getD ""),
        { state := s2, status := .completedS })

/-- Modelled from the spec: the checkpoint-store content after a `resume`
call — a failed call surfaces the error with "no partial state change"
(§7), leaving the stored checkpoint intact. -/
def applyResume (c : Checkpoint) (d : Decision) : Checkpoint :=
  match resume c d with
  | .ok (_, c1) => c1
  | .error _ => c

/-- Modelled from the spec: the checkpoints reachable for a single thread —
created by a first `run` (§4.5: `run` is valid from FRESH only) and updated
by successful `resume` calls. -/
inductive Reachable : Checkpoint → Prop where
  | runR (task : String) : Reachable (run task).2
  | resumeR {c c1 : Checkpoint} {d : Decision} {o : RunOutcome} :
      Reachable c → resume c d = .ok (o, c1) → Reachable c1

/-! ### Substring helper lemmas -/

theorem isPrefixL_self (n : List Char) : isPrefixL n n = true := by
  induction n with
  | nil => rfl
  | cons a as ih => simp [isPrefixL, ih]

theorem occursL_self (n : List Char) : occursL n n = true := by
  cases n with
  | nil => rfl
  | cons a as => simp [occursL, isPrefixL_self]

theorem occursL_append_self (pre n : List Char) : occursL n (pre ++ n) = true := by
  induction pre with
  | nil => simpa using occursL_self n
  | cons c cs ih => simp [occursL, ih]

theorem containsSub_append_self (pre t : String) : containsSub (pre ++ t) t = true := by
  unfold containsSub
  rw [String.data_append]
  exact occursL_append_self pre.data t.data

/-- The rejection template contains the phrase "not executed" whatever the
task text is: the occurrence lies entirely inside the constant prefix, so
the check reduces definitionally. -/
theorem occursL_rej_notexec (l : List Char) :
    occursL ("not executed").data (("❌ Task rejected and not executed:\n📋 ").data ++ l) = true := rfl

/-- An occurrence of the approved-marker in the rejection template can only
come from the task text: no suffix of the constant prefix begins the marker,
so scanning the prefix reduces definitionally. -/
theorem occursL_rej_approvedMarker (l : List Char) :
    occursL ("Task approved and executed").data (("❌ Task rejected and not executed:\n📋 ").data ++ l)
      = occursL ("Task approved and executed").data l := rfl

/-- Same as `occursL_rej_approvedMarker` for the modified-marker. -/
theorem occursL_rej_modifiedMarker (l : List Char) :
    occursL ("executed successfully").data (("❌ Task rejected and not executed:\n📋 ").data ++ l)
      = occursL ("executed successfully").data l := rfl

/-- Same as `occursL_rej_approvedMarker` for the auto-approved-marker. -/
theorem occursL_rej_autoMarker (l : List Char) :
    occursL ("auto-approved and executed").data (("❌ Task rejected and not executed:\n📋 ").data ++ l)
      = occursL ("auto-approved and executed").data l := rfl

theorem containsSub_rejectedMsg_notexec (t : String) :
    containsSub (rejectedMsg t) "not executed" = true := by
  unfold containsSub rejectedMsg
  rw [String.data_append]
  exact occursL_rej_notexec t.data

theorem containsSub_rejectedMsg_approvedMarker (t : String) :
    containsSub (rejectedMsg t) "Task approved and executed"
      = containsSub t "Task approved and executed" := by
  unfold containsSub rejectedMsg
  rw [String.data_append]
  exact occursL_rej_approvedMarker t.data

theorem containsSub_rejectedMsg_modifiedMarker (t : String) :
    containsSub (rejectedMsg t) "executed successfully"
      = containsSub t "executed successfully" := by
  unfold containsSub rejectedMsg
  rw [String.data_append]
  exact occursL_rej_modifiedMarker t.data

theorem containsSub_rejectedMsg_autoMarker (t : String) :
    containsSub (rejectedMsg t) "auto-approved and executed"
      = containsSub t "auto-approved and executed" := by
  unfold containsSub rejectedMsg
  rw [String.data_append]
  exact occursL_rej_autoMarker t.data

/-! ### Step and router lemmas -/

theorem analyze_task_pos {s : WorkflowState} (h : 0 < s.iteration) :
    analyze_task s = .ok { s with approval_status := some "modified" } := by
  unfold analyze_task
  simp [h]

theorem analyze_task_zero_sensitive {s : WorkflowState} (h0 : s.iteration = 0)
    (h : needs_approval s.task = true) :
    analyze_task s = .error (interruptMessage s.task) := by
  unfold analyze_task
  simp [h0, h]

theorem analyze_task_zero_safe {s : WorkflowState} (h0 : s.iteration = 0)
    (h : needs_approval s.task = false) :
    analyze_task s = .ok { s with approval_status := some "auto_approved" } := by
  unfold analyze_task
  simp [h0, h]

theorem route_after_analyze_rejected {s : WorkflowState}
    (h : s.approval_status = some "rejected") : route_after_analyze s = "reject" := by
  unfold route_after_analyze
  simp [h]

theorem route_after_analyze_other {s : WorkflowState}
    (h : s.approval_status ≠ some "rejected") : route_after_analyze s = "execute" := by
  unfold route_after_analyze
  cases hs : s.approval_status with
  | none => simp
  | some v =>
      have hv : v ≠ "rejected" := by
        intro he
        exact h (by rw [hs, he])
      simp [hv]

theorem continueFromRouter_rejected {s : WorkflowState}
    (h : s.approval_status = some "rejected") :
    continueFromRouter s = handle_rejection s := by
  unfold continueFromRouter
  simp [route_after_analyze_rejected h]

theorem continueFromRouter_other {s : WorkflowState}
    (h : s.approval_status ≠ some "rejected") :
    continueFromRouter s = execute_task s := by
  unfold continueFromRouter
  simp [route_after_analyze_other h]

theorem continueFromRouter_task (s : WorkflowState) :
    (continueFromRouter s).task = s.task := by
  unfold continueFromRouter handle_rejection execute_task
  split <;> rfl

theorem continueFromRouter_approval (s : WorkflowState) :
    (continueFromRouter s).approval_status = s.approval_status := by
  unfold continueFromRouter handle_rejection execute_task
  split <;> rfl

theorem continueFromRouter_iteration (s : WorkflowState) :
    (continueFromRouter s).iteration = s.iteration := by
  unfold continueFromRouter handle_rejection execute_task
  split <;> rfl

theorem continueFromRouter_result_isSome (s : WorkflowState) :
    (continueFromRouter s).result.isSome = true := by
  unfold continueFromRouter handle_rejection execute_task
  split <;> rfl

/-! ### Run and resume shape lemmas -/

theorem run_sensitive {task : String} (h : needs_approval task = true) :
    run task = (.suspendedO (interruptMessage task),
      { state := initialState task, status := .suspendedS }) := by
  have ha : analyze_task (initialState task) = .error (interruptMessage task) :=
    analyze_task_zero_sensitive rfl h
  unfold run
  rw [ha]

theorem run_safe {task : String} (h : needs_approval task = false) :
    run task = (.completedO (autoApprovedMsg task),
      { state := { task := task, approval_status := some "auto_approved",
                   result := some (autoApprovedMsg task), iteration := 0 },
        status := .completedS }) := by
  have ha : analyze_task (initialState task)
      = .ok { initialState task with approval_status := some "auto_approved" } :=
    analyze_task_zero_safe rfl h
  have hc : continueFromRouter { initialState task with approval_status := some "auto_approved" }
      = execute_task { initialState task with approval_status := some "auto_approved" } :=
    continueFromRouter_other (by simp [initialState])
  unfold run
  rw [ha]
  simp only [hc]
  unfold execute_task initialState
  simp [autoApprovedMsg]

theorem resume_ok_shape {c c1 : Checkpoint} {d : Decision} {o : RunOutcome}
    (h : resume c d = .ok (o, c1)) :
    c.status = .suspendedS ∧
    c1 = { state := continueFromRouter (mergeDecision c.state d), status := .completedS } ∧
    o = .completedO ((continueFromRouter (mergeDecision c.state d)).result.getD "") := by
  cases hs : c.status with
  | completedS =>
      unfold resume at h
      rw [hs] at h
      exact absurd h (by simp)
  | suspendedS =>
      unfold resume at h
      rw [hs] at h
      simp only [Except.ok.injEq, Prod.mk.injEq] at h
      exact ⟨rfl, h.2.symm, h.1.symm⟩

theorem resume_suspended_eq {c : Checkpoint} (hs : c.status = .suspendedS) (d : Decision) :
    resume c d = .ok (.completedO ((continueFromRouter (mergeDecision c.state d)).result.getD ""),
      { state := continueFromRouter (mergeDecision c.state d), status := .completedS }) := by
  unfold resume
  rw [hs]

theorem reachable_suspended_initial {c : Checkpoint} (hr : Reachable c)
    (hs : c.status = .suspendedS) : c.state = initialState c.state.task := by
  induction hr with
  | runR task =>
      cases h : needs_approval task with
      | true =>
          rw [run_sensitive h]
          rfl
      | false =>
          rw [run_safe h] at hs
          exact absurd hs (by simp)
  | resumeR hr hres ih =>
      have := (resume_ok_shape hres).2.1
      rw [this] at hs
      exact absurd hs (by simp)

/-! ### Claim theorems -/

/-- C1: for every task string at iteration 0 (a fresh thread), `run` suspends
if and only if the lowercased task contains one of the sensitive keywords;
when no keyword is present, `run` completes with
`approval_status = "auto_approved"` and never raises a suspension signal. -/
theorem C1_run_suspends_iff_sensitive (task : String) :
    ((∃ m, (run task).1 = .suspendedO m) ↔
      (sensitive_keywords.any fun k => containsSub (strLower task) k) = true) ∧
    ((sensitive_keywords.any fun k => containsSub (strLower task) k) = true →
      (run task).2.status = .suspendedS) ∧
    ((sensitive_keywords.any fun k => containsSub (strLower task) k) = false →
      (run task).1 = .completedO (autoApprovedMsg task) ∧
      (run task).2.status = .completedS ∧
      (run task).2.state.approval_status = some "auto_approved") := by
  have hna : needs_approval task
      = (sensitive_keywords.any fun k => containsSub (strLower task) k) := rfl
  cases h : needs_approval task with
  | true =>
      rw [run_sensitive h]
      refine ⟨⟨fun _ => ?_, fun _ => ⟨interruptMessage task, rfl⟩⟩, fun _ => rfl, ?_⟩
      · rw [← hna]
        exact h
      · intro hf
        rw [← hna, h] at hf
        exact absurd hf (by simp)
  | false =>
      rw [run_safe h]
      refine ⟨⟨fun hm => ?_, fun hany => ?_⟩, fun ht => ?_, fun _ => ⟨rfl, rfl, rfl⟩⟩
      · obtain ⟨m, hm⟩ := hm
        exact absurd hm (by simp)
      · rw [← hna, h] at hany
        exact absurd hany (by simp)
      · rw [← hna, h] at ht
        exact absurd ht (by simp)

theorem C1_witness :
    (run "generate report").1 = .completedO (autoApprovedMsg "generate report") ∧
    (∃ m, (run "delete important file").1 = .suspendedO m) :=
  ⟨((C1_run_suspends_iff_sensitive "generate report").2.2 (by decide)).1,
   ((C1_run_suspends_iff_sensitive "delete important file").1).mpr (by decide)⟩

/-- C7: the router `route_after_analyze` is a pure total function of the
state returning `"reject"` exactly when `approval_status = "rejected"` and
`"execute"` for every other value (including unset). -/
theorem C7_route_after_analyze_total (s : WorkflowState) :
    (route_after_analyze s = "reject" ↔ s.approval_status = some "rejected") ∧
    (s.approval_status ≠ some "rejected" → route_after_analyze s = "execute") ∧
    (route_after_analyze s = "reject" ∨ route_after_analyze s = "execute") := by
  by_cases h : s.approval_status = some "rejected"
  · exact ⟨⟨fun _ => h, fun _ => route_after_analyze_rejected h⟩,
      fun hn => absurd h hn, Or.inl (route_after_analyze_rejected h)⟩
  · have he := route_after_analyze_other h
    refine ⟨⟨fun hr => ?_, fun hh => absurd hh h⟩, fun _ => he, Or.inr he⟩
    rw [he] at hr
    exact absurd hr (by decide)

theorem C7_witness :
    route_after_analyze
        { task := "t", approval_status := some "rejected", result := none, iteration := 0 }
      = "reject" ∧
    route_after_analyze
        { task := "t", approval_status := none, result := none, iteration := 0 }
      = "execute" :=
  ⟨(C7_route_after_analyze_total _).1.mpr rfl,
   (C7_route_after_analyze_total _).2.1 (by simp)⟩

/-- C9: the approval policy is plain substring containment on the lowercased
task over the fixed keyword list; in particular a keyword occurring only
inside a larger word ("important" inside "unimportant", "remove" inside
"removed") still makes `run` suspend at iteration 0. -/
theorem C9_policy_is_substring_containment :
    (∀ t, needs_approval t = (sensitive_keywords.any fun k => containsSub (strLower t) k)) ∧
    sensitive_keywords = ["delete", "remove", "critical", "important", "sensitive"] ∧
    (run "unimportant notes").1 = .suspendedO (interruptMessage "unimportant notes") ∧
    containsSub (strLower "unimportant notes") "important" = true ∧
    (sensitive_keywords.all fun k => !(k == "unimportant") && !(k == "notes")) = true ∧
    (run "removed old logs").1 = .suspendedO (interruptMessage "removed old logs") := by
  refine ⟨fun t => rfl, rfl, ?_, by decide, by decide, ?_⟩
  · rw [run_sensitive (by decide)]
  · rw [run_sensitive (by decide)]

/-- C10: frame property of the steps: when `analyze_task` returns rather
than suspends it changes only `approval_status`; `execute_task` and
`handle_rejection` change only `result`; no step changes `task` or
`iteration` (the embedding is pure, so each step returns a fresh record and
its input is untouched). -/
theorem C10_frame (s : WorkflowState) :
    (∀ s1, analyze_task s = .ok s1 →
        s1.task = s.task ∧ s1.result = s.result ∧ s1.iteration = s.iteration) ∧
    ((execute_task s).task = s.task ∧ (execute_task s).approval_status = s.approval_status ∧
      (execute_task s).iteration = s.iteration) ∧
    ((handle_rejection s).task = s.task ∧
      (handle_rejection s).approval_status = s.approval_status ∧
      (handle_rejection s).iteration = s.iteration) := by
  refine ⟨fun s1 h => ?_, ⟨rfl, rfl, rfl⟩, ⟨rfl, rfl, rfl⟩⟩
  unfold analyze_task at h
  by_cases hi : 0 < s.iteration
  · simp only [hi, if_pos, gt_iff_lt, Except.ok.injEq] at h
    rw [← h]
    exact ⟨rfl, rfl, rfl⟩
  · cases hn : needs_approval s.task with
    | false =>
        simp only [gt_iff_lt, hi, if_false, hn, Bool.false_eq_true, Except.ok.injEq,
          if_neg, reduceIte] at h
        rw [← h]
        exact ⟨rfl, rfl, rfl⟩
    | true =>
        simp [hi, hn] at h

theorem C10_witness :
    ({ task := "x",
       approval_status := some "auto_approved",
       result := none,
       iteration := 0 } : WorkflowState).task = (initialState "x").task ∧
    (execute_task (initialState "x")).task = (initialState "x").task :=
  ⟨((C10_frame (initialState "x")).1 _ rfl).1, (C10_frame (initialState "x")).2.1.1⟩

/-- C6: `execute_task` computes `result` by a canned-message lookup keyed on
`approval_status` for "approved" / "modified" / "auto_approved", and falls
back to the generic completion message for any other value — including
unrecognized decision strings merged at resume, which the engine does not
reject at its boundary. -/
theorem C6_execute_canned_messages (s : WorkflowState) :
    (s.approval_status = some "approved" →
        execute_task s = { s with result := some (approvedMsg s.task) }) ∧
    (s.approval_status = some "modified" →
        execute_task s = { s with result := some (modifiedMsg s.task) }) ∧
    (s.approval_status = some "auto_approved" →
        execute_task s = { s with result := some (autoApprovedMsg s.task) }) ∧
    (∀ v, s.approval_status = some v → v ≠ "approved" → v ≠ "modified" →
        v ≠ "auto_approved" →
        execute_task s = { s with result := some (genericMsg s.task) }) ∧
    (s.approval_status = none →
        execute_task s = { s with result := some (genericMsg s.task) }) ∧
    (∀ c v, c.status = .suspendedS → v ≠ "rejected" → v ≠ "approved" → v ≠ "modified" →
        v ≠ "auto_approved" →
        resume c (.plain v)
          = .ok (.completedO (genericMsg c.state.task),
              { state := { c.state with
                            approval_status := some v,
                            result := some (genericMsg c.state.task) },
                status := .completedS })) := by
  refine ⟨?_, ?_, ?_, ?_, ?_, ?_⟩
  · intro h
    unfold execute_task
    rw [h]
    rfl
  · intro h
    unfold execute_task
    rw [h]
    rfl
  · intro h
    unfold execute_task
    rw [h]
    rfl
  · intro v h hv1 hv2 hv3
    unfold execute_task
    rw [h]
    simp [hv1, hv2, hv3]
  · intro h
    unfold execute_task
    rw [h]
    rfl
  · intro c v hcs hv0 hv1 hv2 hv3
    have hroute : continueFromRouter { c.state with approval_status := some v }
        = execute_task { c.state with approval_status := some v } :=
      continueFromRouter_other (by simp [hv0])
    have hexec : execute_task { c.state with approval_status := some v }
        = { c.state with
             approval_status := some v,
             result := some (genericMsg c.state.task) } := by
      unfold execute_task
      simp [hv1, hv2, hv3]
    rw [resume_suspended_eq hcs, show mergeDecision c.state (.plain v)
      = { c.state with approval_status := some v } from rfl, hroute, hexec]
    rfl

theorem C6_witness :
    execute_task { task := "t",
                   approval_status := some "approved",
                   result := none,
                   iteration := 0 }
      = { task := "t",
          approval_status := some "approved",
          result := some (approvedMsg "t"),
          iteration := 0 } ∧
    resume { state := initialState "delete x", status := .suspendedS } (.plain "foo")
      = .ok (.completedO (genericMsg "delete x"),
          { state := { task := "delete x",
                       approval_status := some "foo",
                       result := some (genericMsg "delete x"),
                       iteration := 0 },
            status := .completedS }) :=
  ⟨(C6_execute_canned_messages _).1 rfl,
   (C6_execute_canned_messages (initialState "q")).2.2.2.2.2 _ "foo" rfl
     (by decide) (by decide) (by decide) (by decide)⟩

/-- C2: for every reachable SUSPENDED thread, resuming with
{modified, newTask := T} sets `task = T`, `approval_status = "modified"` and
`iteration = 1 = iteration + 1`; the policy is not re-evaluated (Analyze
with positive iteration sets "modified" unconditionally, and the resumed walk
re-enters at the conditional edge), and the thread completes with the
modified-template result, which references `T`; on the §8 scenario the
result does not reference the original task text. -/
theorem C2_resume_modified {c : Checkpoint} (hr : Reachable c)
    (hs : c.status = .suspendedS) (T : String) :
    (mergeDecision c.state (.modifiedD T)).task = T ∧
    (mergeDecision c.state (.modifiedD T)).approval_status = some "modified" ∧
    (mergeDecision c.state (.modifiedD T)).iteration = 1 ∧
    (mergeDecision c.state (.modifiedD T)).iteration = c.state.iteration + 1 ∧
    (∀ s : WorkflowState, 0 < s.iteration →
        analyze_task s = .ok { s with approval_status := some "modified" }) ∧
    resume c (.modifiedD T)
      = .ok (.completedO (modifiedMsg T),
          { state := { task := T,
                       approval_status := some "modified",
                       result := some (modifiedMsg T),
                       iteration := 1 },
            status := .completedS }) ∧
    containsSub (modifiedMsg T) T = true ∧
    containsSub (modifiedMsg "archive old file") "delete important file" = false := by
  have hinit := reachable_suspended_initial hr hs
  have h0 : c.state.iteration = 0 := by
    rw [hinit]
    rfl
  have hmerge : mergeDecision c.state (.modifiedD T)
      = { task := T, approval_status := some "modified", result := none,
          iteration := 1 } := by
    rw [hinit]
    rfl
  refine ⟨by rw [hmerge], by rw [hmerge], by rw [hmerge], by rw [hmerge, h0],
    fun s hi => analyze_task_pos hi, ?_, ?_, by decide⟩
  · rw [resume_suspended_eq hs, hmerge,
      continueFromRouter_other
        (s := { task := T, approval_status := some "modified", result := none,
                iteration := 1 }) (by simp)]
    rfl
  · unfold modifiedMsg
    exact containsSub_append_self _ T

theorem C2_witness :
    resume (run "delete important file").2 (.modifiedD "archive old file")
      = .ok (.completedO (modifiedMsg "archive old file"),
          { state := { task := "archive old file",
                       approval_status := some "modified",
                       result := some (modifiedMsg "archive old file"),
                       iteration := 1 },
            status := .completedS }) :=
  (C2_resume_modified (Reachable.runR "delete important file") rfl
    "archive old file").2.2.2.2.2.1

/-- C3: calling resume twice on the same SUSPENDED thread with the same
decision succeeds the first time, reaching COMPLETED, and fails with
InvalidTransition the second time; the failed second call leaves the
checkpoint unchanged. -/
theorem C3_resume_twice {c : Checkpoint} (hs : c.status = .suspendedS) (d : Decision) :
    ∃ o c1, resume c d = .ok (o, c1) ∧ c1.status = .completedS ∧
      resume c1 d = .error .invalidTransition ∧ applyResume c1 d = c1 :=
  ⟨_, _, resume_suspended_eq hs d, rfl, rfl, rfl⟩

theorem C3_witness :
    ∃ o c1,
      resume { state := initialState "delete f", status := .suspendedS }
          (.plain "approved") = .ok (o, c1) ∧
      c1.status = .completedS ∧
      resume c1 (.plain "approved") = .error .invalidTransition ∧
      applyResume c1 (.plain "approved") = c1 :=
  C3_resume_twice rfl (.plain "approved")

/-- C4 (counterexample): on the §8 concrete scenario, resuming a suspended
thread with {rejected} yields the rejection result, and that result string
does contain the substring "executed" (inside the phrase "not executed"),
refuting the literal reading of "never contains an executed marker". -/
theorem C4_counterexample :
    resume (run "delete important file").2 (.plain "rejected")
      = .ok (.completedO (rejectedMsg "delete important file"),
          { state := { task := "delete important file",
                       approval_status := some "rejected",
                       result := some (rejectedMsg "delete important file"),
                       iteration := 0 },
            status := .completedS }) ∧
    containsSub (rejectedMsg "delete important file") "executed" = true :=
  ⟨rfl, by decide⟩

/-- C4 (amended): for every SUSPENDED thread, resume with {rejected}
completes via the Reject step regardless of prior approval status; the result
is the rejection template — it contains "not executed" (and hence the bare
substring "executed"), and contains none of Execute's success markers unless
the task text itself contains that marker. -/
theorem C4_resume_rejected {c : Checkpoint} (hs : c.status = .suspendedS) :
    continueFromRouter (mergeDecision c.state (.plain "rejected"))
      = handle_rejection (mergeDecision c.state (.plain "rejected")) ∧
    resume c (.plain "rejected")
      = .ok (.completedO (rejectedMsg c.state.task),
          { state := { c.state with
                        approval_status := some "rejected",
                        result := some (rejectedMsg c.state.task) },
            status := .completedS }) ∧
    containsSub (rejectedMsg c.state.task) "not executed" = true ∧
    (containsSub c.state.task "Task approved and executed" = false →
        containsSub (rejectedMsg c.state.task) "Task approved and executed" = false) ∧
    (containsSub c.state.task "executed successfully" = false →
        containsSub (rejectedMsg c.state.task) "executed successfully" = false) ∧
    (containsSub c.state.task "auto-approved and executed" = false →
        containsSub (rejectedMsg c.state.task) "auto-approved and executed" = false) := by
  have hroute : continueFromRouter (mergeDecision c.state (.plain "rejected"))
      = handle_rejection (mergeDecision c.state (.plain "rejected")) :=
    continueFromRouter_rejected rfl
  refine ⟨hroute, ?_, containsSub_rejectedMsg_notexec _, ?_, ?_, ?_⟩
  · rw [resume_suspended_eq hs, hroute]
    rfl
  · intro h
    rw [containsSub_rejectedMsg_approvedMarker]
    exact h
  · intro h
    rw [containsSub_rejectedMsg_modifiedMarker]
    exact h
  · intro h
    rw [containsSub_rejectedMsg_autoMarker]
    exact h

theorem C4_witness :
    containsSub (rejectedMsg "delete f") "not executed" = true ∧
    containsSub (rejectedMsg "delete f") "Task approved and executed" = false :=
  ⟨(C4_resume_rejected
      (c := { state := initialState "delete f", status := .suspendedS }) rfl).2.2.1,
   (C4_resume_rejected
      (c := { state := initialState "delete f", status := .suspendedS }) rfl).2.2.2.1
     (by decide)⟩

/-- C5: from a SUSPENDED thread, resume with any decision returns a completed
outcome and never a suspended one and never an error: re-entry happens at the
conditional edge out of Analyze, and both terminal steps return normally with
a result set. -/
theorem C5_resume_never_resuspends {c : Checkpoint} (hs : c.status = .suspendedS)
    (d : Decision) :
    (∃ r c1, resume c d = .ok (.completedO r, c1) ∧ c1.status = .completedS ∧
        c1.state.result.isSome = true) ∧
    (∀ m c1, resume c d ≠ .ok (.suspendedO m, c1)) ∧
    (∀ e, resume c d ≠ .error e) := by
  have h := resume_suspended_eq hs d
  refine ⟨⟨_, _, h, rfl, continueFromRouter_result_isSome _⟩, ?_, ?_⟩
  · intro m c1 hc
    rw [h] at hc
    simp at hc
  · intro e hc
    rw [h] at hc
    simp at hc

theorem C5_witness :
    ∃ r c1,
      resume { state := initialState "remove db", status := .suspendedS }
          (.plain "approved") = .ok (.completedO r, c1) ∧
      c1.status = .completedS ∧ c1.state.result.isSome = true :=
  (C5_resume_never_resuspends rfl (.plain "approved")).1

/-- C8: over all reachable checkpoints of a thread, `result` is set exactly
when the thread has reached a terminal step (status COMPLETED); Analyze never
sets `result` but always sets `approval_status`; the terminal steps always
set `result` and never touch `approval_status`; and a successful resume
leaves `approval_status` set (never reset to unset). -/
theorem C8_result_iff_terminal :
    (∀ c, Reachable c → (c.state.result.isSome = true ↔ c.status = .completedS)) ∧
    (∀ c c1 d o, resume c d = .ok (o, c1) →
        c1.state.approval_status.isSome = true) ∧
    (∀ s s1, analyze_task s = .ok s1 →
        s1.result = s.result ∧ s1.approval_status.isSome = true) ∧
    (∀ s, (execute_task s).result.isSome = true ∧
        (handle_rejection s).result.isSome = true ∧
        (execute_task s).approval_status = s.approval_status ∧
        (handle_rejection s).approval_status = s.approval_status) := by
  refine ⟨?_, ?_, ?_, fun s => ⟨rfl, rfl, rfl, rfl⟩⟩
  · intro c hr
    induction hr with
    | runR task =>
        cases h : needs_approval task with
        | true =>
            rw [run_sensitive h]
            simp [initialState]
        | false =>
            rw [run_safe h]
            simp
    | resumeR hr hres ih =>
        rw [(resume_ok_shape hres).2.1]
        simp [continueFromRouter_result_isSome]
  · intro c c1 d o hres
    rw [(resume_ok_shape hres).2.1]
    show (continueFromRouter (mergeDecision c.state d)).approval_status.isSome = true
    rw [continueFromRouter_approval]
    cases d <;> rfl
  · intro s s1 h
    unfold analyze_task at h
    by_cases hi : 0 < s.iteration
    · simp only [hi, gt_iff_lt, if_pos, Except.ok.injEq] at h
      rw [← h]
      exact ⟨rfl, rfl⟩
    · cases hn : needs_approval s.task with
      | false =>
          simp only [gt_iff_lt, hi, hn, Bool.false_eq_true, if_neg, reduceIte,
            Except.ok.injEq] at h
          rw [← h]
          exact ⟨rfl, rfl⟩
      | true =>
          simp [hi, hn] at h

theorem C8_witness :
    ((run "generate report").2.state.result.isSome = true ↔
      (run "generate report").2.status = .completedS) ∧
    ((run "delete important file").2.state.result.isSome = true ↔
      (run "delete important file").2.status = .completedS) :=
  ⟨C8_result_iff_terminal.1 _ (Reachable.runR "generate report"),
   C8_result_iff_terminal.1 _ (Reachable.runR "delete important file")⟩

end App
